import Mathlib

/-!
Verification of the data-access layer in `backend/crud.py` of nebulacsm.

The Python module is embedded shallowly: the relational store becomes a
`DB` structure of lists of records, each CRUD function becomes a pure Lean
function, and a raised `fastapi.HTTPException` becomes an `Except.error`
carrying the same status code and detail string.  A mutating operation
returns the error or result together with the database state at the moment
the operation finished (for a raise, the state at the raise, i.e. the
unchanged input state, since every raise in the module happens before any
write).  Python truthiness tests on strings, options and integers are made
explicit (`== ""`, `Option` match, `!= 0`).
-/

namespace Crud

/-- Mirrors `fastapi.HTTPException`: a status code plus a detail string. -/
structure HTTPException where
  status_code : Nat
  detail : String
deriving DecidableEq

/-- Modelled from the spec (§4.1, password helpers): `bcrypt.hashpw` is an
external library; the salt is abstracted away.  The model keeps the
observable properties the spec relies on: a hash verifies against the
password it was made from, and the hash output carries the bcrypt format
tag so it is never equal to the plaintext itself.  Embeds `hash_password`
(crud.py line 10). -/
def hash_password (password : String) : String :=
  "$2b$12$" ++ password

/-- Modelled from the spec (§4.1): `bcrypt.checkpw` re-hashes the plaintext
with the salt stored in the hash and compares.  With the salt abstracted
away this is comparison against the re-computed hash.  Embeds
`verify_password` (crud.py line 13). -/
def verify_password (plain_password : String) (hashed_password : String) : Bool :=
  hashed_password == hash_password plain_password

/-- Modelled from the spec (§3): `models.User` (the models module is not in
the sources; fields from the spec's data model). -/
structure User where
  id : Nat
  email : String
  password : String
deriving DecidableEq

/-- Modelled from the spec (§3/§6): `schemas.UserCreate` — the input object
for user creation, the stored fields minus the generated id. -/
structure UserCreate where
  email : String
  password : String
deriving DecidableEq

/-- Modelled from the spec (§3): `models.Domain`. -/
structure Domain where
  id : Nat
  user_id : Nat
deriving DecidableEq

/-- Modelled from the spec (§3): `models.Page`. -/
structure Page where
  id : Nat
  domain_id : Nat
  title : String
  hierarchy : Int
deriving DecidableEq

/-- Modelled from the spec (§3): `models.Section`. -/
structure Section where
  id : Nat
  page_id : Nat
  type : String
  title : String
deriving DecidableEq

/-- Modelled from the spec (§3/§6): `schemas.SectionCreate`. -/
structure SectionCreate where
  page_id : Nat
  type : String
  title : String
deriving DecidableEq

/-- Modelled from the spec (§3): `models.Media`. -/
structure Media where
  id : Nat
  title : String
  file_url : String
  type : String
  domain_id : Nat
  section_id : Option Nat
  uploaded_by : Nat
  text : String
deriving DecidableEq

/-- Modelled from the spec (§3/§6): `schemas.MediaCreate`. -/
structure MediaCreate where
  title : String
  file_url : String
  type : String
  domain_id : Nat
  section_id : Option Nat
  uploaded_by : Nat
  text : String
deriving DecidableEq

/-- The relational store the ORM session gives access to. -/
structure DB where
  users : List User
  domains : List Domain
  pages : List Page
  sections : List Section
  media : List Media
deriving DecidableEq

/-- A fresh primary key for an insert: one more than the largest id in use. -/
def freshId (ids : List Nat) : Nat :=
  ids.foldr max 0 + 1

/-- Embeds `create_user` (crud.py lines 17-32): reject a duplicate email with
400, otherwise hash the password and insert. -/
def create_user (db : DB) (user : UserCreate) : Except HTTPException User × DB :=
  if (db.users.find? (fun u => u.email == user.email)).isSome then
    (.error { status_code := 400, detail := "Email already registered" }, db)
  else
    let db_user : User :=
      { id := freshId (db.users.map User.id)
        email := user.email
        password := hash_password user.password }
    (.ok db_user, { db with users := db.users ++ [db_user] })

/-- Embeds `authenticate_user` (crud.py lines 43-49). -/
def authenticate_user (db : DB) (email : String) (password : String) : Option User :=
  match db.users.find? (fun u => u.email == email) with
  | none => none
  | some user =>
      if verify_password password user.password then some user else none

/-- Embeds `change_password` (crud.py lines 53-60): 403 when the old
password does not verify, otherwise re-hash and persist on the user's row. -/
def change_password (db : DB) (user : User) (old_password : String)
    (new_password : String) : Except HTTPException User × DB :=
  if verify_password old_password user.password then
    let updated : User := { user with password := hash_password new_password }
    (.ok updated,
      { db with users := db.users.map (fun u => if u.id == user.id then updated else u) })
  else
    (.error { status_code := 403, detail := "Old password is incorrect" }, db)

/-- The ids of the domains owned by a user (crud.py lines 104-105 and
151-152, the same two-line query in both functions). -/
def user_domain_ids (db : DB) (user_id : Nat) : List Nat :=
  (db.domains.filter (fun d => d.user_id == user_id)).map Domain.id

/-- One row of the page-summary aggregation of `get_pages_by_user_id`
(crud.py lines 108-128): page id (stringified), title, hierarchy, and the
outer-join section count, which is 0 when the page has no sections. -/
structure PageSummary where
  id : String
  title : String
  hierarchy : Int
  sections : Nat
deriving DecidableEq

/-- The summary row built for one page (crud.py lines 108-118 and 121-128). -/
def pageRow (db : DB) (p : Page) : PageSummary :=
  { id := toString p.id
    title := p.title
    hierarchy := p.hierarchy
    sections := (db.sections.filter (fun s => s.page_id == p.id)).length }

/-- Embeds `get_pages_by_user_id` (crud.py lines 103-129): pages under the
user's domains, one summary row each, ordered ascending by hierarchy
(`ORDER BY hierarchy ASC`, realised by a sort). -/
def get_pages_by_user_id (db : DB) (user_id : Nat) : List PageSummary :=
  let domain_ids := user_domain_ids db user_id
  let pages := db.pages.filter (fun p => domain_ids.contains p.domain_id)
  List.insertionSort (fun a b => a.hierarchy ≤ b.hierarchy) (pages.map (pageRow db))

/-- Embeds `create_section` (crud.py lines 134-147).  `if page_id:` is
Python truthiness: the override happens only for a present, nonzero
`page_id`.  An empty `type` raises 400 before any write. -/
def create_section (db : DB) (sec : SectionCreate) (page_id : Option Nat) :
    Except HTTPException Section × DB :=
  let data_page_id :=
    match page_id with
    | some pid => if pid != 0 then pid else sec.page_id
    | none => sec.page_id
  if sec.type == "" then
    (.error { status_code := 400, detail := "Section type is required" }, db)
  else
    let db_section : Section :=
      { id := freshId (db.sections.map Section.id)
        page_id := data_page_id
        type := sec.type
        title := sec.title }
    (.ok db_section, { db with sections := db.sections ++ [db_section] })

/-- The page looked up by `get_sections_by_page_and_user` (crud.py line
154): the page with the given id, provided its domain is among the user's. -/
def owned_page (db : DB) (page_id : Nat) (user_id : Nat) : Option Page :=
  db.pages.find?
    (fun p => p.id == page_id && (user_domain_ids db user_id).contains p.domain_id)

/-- Embeds `get_sections_by_page_and_user` (crud.py lines 149-160): empty
list when the page is not under one of the user's domains, otherwise the
page's sections minus those titled exactly `"is"`. -/
def get_sections_by_page_and_user (db : DB) (page_id : Nat) (user_id : Nat) :
    List Section :=
  match owned_page db page_id user_id with
  | none => []
  | some _ =>
      db.sections.filter (fun s => s.page_id == page_id && !(s.title == "is"))

/-- Embeds `create_media` (crud.py lines 177-187): an empty title raises 400
before any write. -/
def create_media (db : DB) (media : MediaCreate) : Except HTTPException Media × DB :=
  if media.title == "" then
    (.error { status_code := 400, detail := "Media title is required" }, db)
  else
    let db_media : Media :=
      { id := freshId (db.media.map Media.id)
        title := media.title
        file_url := media.file_url
        type := media.type
        domain_id := media.domain_id
        section_id := media.section_id
        uploaded_by := media.uploaded_by
        text := media.text }
    (.ok db_media, { db with media := db.media ++ [db_media] })

/-- Embeds `delete_media` (crud.py lines 217-234): 404 when no row has the
id, otherwise remove the found row and return it. -/
def delete_media (db : DB) (media_id : Nat) : Except HTTPException Media × DB :=
  match db.media.find? (fun m => m.id == media_id) with
  | none => (.error { status_code := 404, detail := "Media item not found" }, db)
  | some media_item =>
      (.ok media_item, { db with media := db.media.eraseP (fun m => m.id == media_id) })

/-- Embeds `update_media` (crud.py lines 236-257): 404 when no row has the
id, otherwise overwrite title, alt text and section association on that row. -/
def update_media (db : DB) (media_id : Nat) (title : String) (text : String)
    (section_id : Option Nat) : Except HTTPException Media × DB :=
  match db.media.find? (fun m => m.id == media_id) with
  | none => (.error { status_code := 404, detail := "Media item not found" }, db)
  | some media_item =>
      let updated : Media :=
        { media_item with title := title, text := text, section_id := section_id }
      (.ok updated,
        { db with media := db.media.map (fun m => if m.id == media_id then updated else m) })

/-! Generic facts about the password model. -/

/-- A bcrypt hash is never the plaintext it hashes (the format tag makes the
lengths differ). -/
theorem hash_password_ne (p : String) : hash_password p ≠ p := by
  intro h
  have h2 := congrArg String.length h
  rw [hash_password, String.length_append] at h2
  have h7 : ("$2b$12$" : String).length = 7 := rfl
  omega

/-! Concrete data used by the witnesses. -/

/-- A stored user whose password is the hash of `"pw"`. -/
def exUser : User := { id := 1, email := "a@b", password := hash_password "pw" }

/-- A store with one user, one domain owned by user 7, one page under that
domain, and three sections: two on that page (one titled `"is"`) and one on
another page. -/
def exDB : DB :=
  { users := [exUser]
    domains := [{ id := 1, user_id := 7 }]
    pages := [{ id := 1, domain_id := 1, title := "home", hierarchy := 0 }]
    sections :=
      [{ id := 1, page_id := 1, type := "text", title := "intro" },
       { id := 2, page_id := 1, type := "text", title := "is" },
       { id := 3, page_id := 2, type := "text", title := "other" }]
    media := [] }

/-- The first section of `exDB`. -/
def exSectionIntro : Section := { id := 1, page_id := 1, type := "text", title := "intro" }

/-! Claim theorems. -/

/-- C1: `get_sections_by_page_and_user` returns the empty list when the page
with the given id is not under a domain owned by the user; when it is, the
result holds exactly the sections of that page except those whose title is
the literal string `"is"`. -/
theorem C1_sections_scoped_and_filtered (db : DB) (page_id : Nat) (user_id : Nat) :
    (owned_page db page_id user_id = none →
      get_sections_by_page_and_user db page_id user_id = []) ∧
    (∀ pg, owned_page db page_id user_id = some pg →
      ∀ s : Section, s ∈ get_sections_by_page_and_user db page_id user_id ↔
        (s ∈ db.sections ∧ s.page_id = page_id ∧ s.title ≠ "is")) := by
  constructor
  · intro h
    simp [get_sections_by_page_and_user, h]
  · intro pg h s
    simp [get_sections_by_page_and_user, h, List.mem_filter, and_assoc]

/-- Witness for C1 on `exDB`: user 9 owns nothing, so the lookup is empty;
user 7 owns the page, and membership is exactly as C1 states. -/
theorem C1_witness :
    get_sections_by_page_and_user exDB 1 9 = [] ∧
    (exSectionIntro ∈ get_sections_by_page_and_user exDB 1 7 ↔
      (exSectionIntro ∈ exDB.sections ∧ exSectionIntro.page_id = 1 ∧
        exSectionIntro.title ≠ "is")) :=
  ⟨(C1_sections_scoped_and_filtered exDB 1 9).1 (by decide),
   (C1_sections_scoped_and_filtered exDB 1 7).2
     { id := 1, domain_id := 1, title := "home", hierarchy := 0 } (by decide)
     exSectionIntro⟩

/-- C2: `create_user` fails with the duplicate-email 400 exactly when a user
with the same email exists; otherwise the new record is appended, returned,
and its stored password is the hash of the plaintext, never the plaintext. -/
theorem C2_create_user_conflict_or_hashed (db : DB) (user : UserCreate) :
    ((∃ u ∈ db.users, u.email = user.email) →
      create_user db user
        = (.error { status_code := 400, detail := "Email already registered" }, db)) ∧
    ((¬ ∃ u ∈ db.users, u.email = user.email) →
      create_user db user
        = (.ok { id := freshId (db.users.map User.id), email := user.email,
                 password := hash_password user.password },
           { db with users := db.users ++
               [{ id := freshId (db.users.map User.id), email := user.email,
                  password := hash_password user.password }] }) ∧
      hash_password user.password ≠ user.password) := by
  constructor
  · rintro ⟨u, hu, he⟩
    have hs : (db.users.find? (fun x => x.email == user.email)).isSome := by
      rw [List.find?_isSome]
      exact ⟨u, hu, by simp [he]⟩
    simp [create_user, hs]
  · intro hn
    have hs : db.users.find? (fun x => x.email == user.email) = none := by
      rw [List.find?_eq_none]
      intro x hx
      simp only [beq_iff_eq]
      exact fun heq => hn ⟨x, hx, heq⟩
    exact ⟨by simp [create_user, hs], hash_password_ne user.password⟩

/-- Witness for C2 on `exDB`: re-registering `"a@b"` hits the conflict;
registering `"new@b"` succeeds with a hashed password. -/
theorem C2_witness :
    (create_user exDB { email := "a@b", password := "x" }
      = (.error { status_code := 400, detail := "Email already registered" }, exDB)) ∧
    (create_user exDB { email := "new@b", password := "x" }
        = (.ok { id := freshId (exDB.users.map User.id), email := "new@b",
                 password := hash_password "x" },
           { exDB with users := exDB.users ++
               [{ id := freshId (exDB.users.map User.id), email := "new@b",
                  password := hash_password "x" }] }) ∧
      hash_password "x" ≠ "x") :=
  ⟨(C2_create_user_conflict_or_hashed exDB { email := "a@b", password := "x" }).1
      ⟨exUser, by decide, by decide⟩,
   (C2_create_user_conflict_or_hashed exDB { email := "new@b", password := "x" }).2
      (by decide)⟩

/-- C3: `authenticate_user` yields the stored user exactly when the email is
found and the password verifies; when the email is unknown, and equally when
the password mismatches, it yields the very same value `none`, so the two
failures are indistinguishable. -/
theorem C3_authenticate_user_cases (db : DB) (email : String) (password : String) :
    (db.users.find? (fun u => u.email == email) = none →
      authenticate_user db email password = none) ∧
    (∀ u, db.users.find? (fun u => u.email == email) = some u →
      verify_password password u.password = false →
      authenticate_user db email password = none) ∧
    (∀ u, db.users.find? (fun u => u.email == email) = some u →
      verify_password password u.password = true →
      authenticate_user db email password = some u) :=
  ⟨fun h => by simp [authenticate_user, h],
   fun u h hv => by simp [authenticate_user, h, hv],
   fun u h hv => by simp [authenticate_user, h, hv]⟩

/-- Witness for C3 on `exDB`: unknown email and wrong password both produce
`none`; the right credentials produce the stored user. -/
theorem C3_witness :
    authenticate_user exDB "ghost@b" "pw" = none ∧
    authenticate_user exDB "a@b" "wrong" = none ∧
    authenticate_user exDB "a@b" "pw" = some exUser :=
  ⟨(C3_authenticate_user_cases exDB "ghost@b" "pw").1 (by decide),
   (C3_authenticate_user_cases exDB "a@b" "wrong").2.1 exUser (by decide) (by decide),
   (C3_authenticate_user_cases exDB "a@b" "pw").2.2 exUser (by decide) (by decide)⟩

/-- C4: `change_password` with an old password that does not verify fails
with 403 and leaves the database — in particular the stored hash — exactly
as it was. -/
theorem C4_change_password_forbidden_unchanged (db : DB) (user : User)
    (old_password : String) (new_password : String)
    (h : verify_password old_password user.password = false) :
    change_password db user old_password new_password
      = (.error { status_code := 403, detail := "Old password is incorrect" }, db) := by
  simp [change_password, h]

/-- Witness for C4 on `exDB`: a wrong old password is rejected and the store
is untouched. -/
theorem C4_witness :
    change_password exDB exUser "wrong" "fresh"
      = (.error { status_code := 403, detail := "Old password is incorrect" }, exDB) :=
  C4_change_password_forbidden_unchanged exDB exUser "wrong" "fresh" (by decide)

/-- The store of the spec's §8 example: domains D1, D2 owned by user 4,
page P1 (hierarchy 1, two sections) under D1 and page P2 (hierarchy 0, no
sections) under D2. -/
def exDB5 : DB :=
  { users := []
    domains := [{ id := 1, user_id := 4 }, { id := 2, user_id := 4 }]
    pages := [{ id := 1, domain_id := 1, title := "P1", hierarchy := 1 },
              { id := 2, domain_id := 2, title := "P2", hierarchy := 0 }]
    sections :=
      [{ id := 1, page_id := 1, type := "text", title := "s1" },
       { id := 2, page_id := 1, type := "text", title := "s2" }]
    media := [] }

/-- C5: `get_pages_by_user_id` returns one summary row per page under the
user's domains (a permutation of the rows of those pages), the rows are in
ascending hierarchy order, and a row's section count is the number of
sections attached to its page — 0 when the page has none. -/
theorem C5_pages_by_user_sorted_counts (db : DB) (user_id : Nat) :
    (get_pages_by_user_id db user_id).Perm
      ((db.pages.filter
          (fun p => (user_domain_ids db user_id).contains p.domain_id)).map (pageRow db)) ∧
    (get_pages_by_user_id db user_id).Pairwise (fun a b => a.hierarchy ≤ b.hierarchy) ∧
    (∀ p : Page,
      (pageRow db p).sections = (db.sections.filter (fun s => s.page_id == p.id)).length) ∧
    (∀ p : Page, db.sections.filter (fun s => s.page_id == p.id) = [] →
      (pageRow db p).sections = 0) := by
  refine ⟨List.perm_insertionSort _ _, ?_, fun p => rfl, fun p h => ?_⟩
  · haveI : IsTotal PageSummary (fun a b => a.hierarchy ≤ b.hierarchy) :=
      ⟨fun a b => Int.le_total a.hierarchy b.hierarchy⟩
    haveI : IsTrans PageSummary (fun a b => a.hierarchy ≤ b.hierarchy) :=
      ⟨fun _ _ _ hab hbc => le_trans hab hbc⟩
    exact List.sorted_insertionSort _ _
  · simp [pageRow, h]

/-- Witness for C5 on the §8 example store: page P2 carries no sections so
its summary row reports count 0. -/
theorem C5_witness :
    (pageRow exDB5 { id := 2, domain_id := 2, title := "P2", hierarchy := 0 }).sections
      = 0 :=
  (C5_pages_by_user_sorted_counts exDB5 4).2.2.2
    { id := 2, domain_id := 2, title := "P2", hierarchy := 0 } (by decide)

/-- C6: `create_section` with an empty `type` fails with 400 and leaves the
store unchanged; consequently, when every stored section has a non-empty
type, this still holds after any `create_section` call. -/
theorem C6_create_section_empty_type_rejected (db : DB) (sec : SectionCreate)
    (page_id : Option Nat) :
    (sec.type = "" →
      create_section db sec page_id
        = (.error { status_code := 400, detail := "Section type is required" }, db)) ∧
    ((∀ s ∈ db.sections, s.type ≠ "") →
      ∀ s ∈ (create_section db sec page_id).2.sections, s.type ≠ "") := by
  constructor
  · intro h
    simp [create_section, h]
  · intro hall s hs
    by_cases h : sec.type = ""
    · rw [(by simp [create_section, h] :
          create_section db sec page_id
            = (.error { status_code := 400, detail := "Section type is required" }, db))] at hs
      exact hall s hs
    · simp [create_section, h] at hs
      rcases hs with hs | hs
      · exact hall s hs
      · rw [hs]
        exact h

/-- Witness for C6 on `exDB`: an empty type is rejected with the store
untouched, and the section persisted by a well-typed call has a non-empty
type. -/
theorem C6_witness :
    (create_section exDB { page_id := 1, type := "", title := "x" } none
      = (.error { status_code := 400, detail := "Section type is required" }, exDB)) ∧
    Section.type
      { id := 4, page_id := 1, type := "text", title := "x" } ≠ "" :=
  ⟨(C6_create_section_empty_type_rejected exDB
      { page_id := 1, type := "", title := "x" } none).1 rfl,
   (C6_create_section_empty_type_rejected exDB
      { page_id := 1, type := "text", title := "x" } none).2 (by decide)
      { id := 4, page_id := 1, type := "text", title := "x" } (by decide)⟩

/-- When `find?` locates an element, the list is a permutation of that
element consed onto the list with the first match erased. -/
theorem perm_cons_eraseP_of_find (l : List Media) (i : Nat) (m : Media)
    (h : l.find? (fun x => x.id == i) = some m) :
    l.Perm (m :: l.eraseP (fun x => x.id == i)) := by
  induction l with
  | nil => simp at h
  | cons a t ih =>
    by_cases ha : a.id = i
    · rw [List.find?_cons_of_pos t (by simp [ha])] at h
      cases h
      rw [List.eraseP_cons_of_pos (by simp [ha])]
    · rw [List.find?_cons_of_neg t (by simp [ha])] at h
      rw [List.eraseP_cons_of_neg (by simp [ha])]
      exact ((ih h).cons a).trans (List.Perm.swap m a _)

/-- After erasing the first element with a given id from a list whose ids
are distinct, no element with that id remains. -/
theorem find?_eraseP_id_none (l : List Media) (i : Nat)
    (hn : (l.map Media.id).Nodup) :
    (l.eraseP (fun x => x.id == i)).find? (fun x => x.id == i) = none := by
  induction l with
  | nil => rfl
  | cons a t ih =>
    rw [List.map_cons, List.nodup_cons] at hn
    by_cases ha : a.id = i
    · rw [List.eraseP_cons_of_pos (by simp [ha])]
      rw [List.find?_eq_none]
      intro x hx
      simp only [beq_iff_eq]
      intro hxi
      exact hn.1 (List.mem_map.mpr ⟨x, hx, by rw [hxi, ha]⟩)
    · rw [List.eraseP_cons_of_neg (by simp [ha])]
      rw [List.find?_cons_of_neg _ (by simp [ha])]
      exact ih hn.2

/-- A store holding one media record. -/
def exMedia : Media :=
  { id := 1, title := "logo", file_url := "u", type := "image", domain_id := 1,
    section_id := some 1, uploaded_by := 1, text := "alt" }

/-- A store whose only content is `exMedia`. -/
def exDB7 : DB :=
  { users := [], domains := [], pages := [], sections := [], media := [exMedia] }

/-- C7: `delete_media` fails with 404 exactly when no record has the id and
then leaves the store unchanged; when a record is found it is returned, the
store loses exactly that record, and (with distinct ids, as primary keys
are) a subsequent lookup by the id finds nothing. -/
theorem C7_delete_media_spec (db : DB) (media_id : Nat) :
    (db.media.find? (fun m => m.id == media_id) = none →
      delete_media db media_id
        = (.error { status_code := 404, detail := "Media item not found" }, db)) ∧
    (∀ m, db.media.find? (fun x => x.id == media_id) = some m →
      (delete_media db media_id).1 = .ok m ∧
      db.media.Perm (m :: (delete_media db media_id).2.media) ∧
      ((db.media.map Media.id).Nodup →
        (delete_media db media_id).2.media.find? (fun x => x.id == media_id) = none)) := by
  constructor
  · intro h
    simp [delete_media, h]
  · intro m h
    refine ⟨by simp [delete_media, h], ?_, fun hn => ?_⟩
    · have := perm_cons_eraseP_of_find db.media media_id m h
      simpa [delete_media, h] using this
    · have := find?_eraseP_id_none db.media media_id hn
      simpa [delete_media, h] using this

/-- Witness for C7 on `exDB7`: deleting id 5 is a 404 that leaves the store
alone; deleting id 1 returns the record, shrinks the store by exactly it,
and a fresh lookup of id 1 comes back empty. -/
theorem C7_witness :
    (delete_media exDB7 5
      = (.error { status_code := 404, detail := "Media item not found" }, exDB7)) ∧
    (delete_media exDB7 1).1 = .ok exMedia ∧
    exDB7.media.Perm (exMedia :: (delete_media exDB7 1).2.media) ∧
    (delete_media exDB7 1).2.media.find? (fun x => x.id == 1) = none :=
  ⟨(C7_delete_media_spec exDB7 5).1 (by decide),
   ((C7_delete_media_spec exDB7 1).2 exMedia (by decide)).1,
   ((C7_delete_media_spec exDB7 1).2 exMedia (by decide)).2.1,
   ((C7_delete_media_spec exDB7 1).2 exMedia (by decide)).2.2 (by decide)⟩

/-- Counterexample to C8: `create_section` is called on `exDB` with the
explicit page id 0 while the input carries page id 5.  Because the source
guard is Python truthiness (`if page_id:`), the zero argument does not
override: the persisted section keeps page id 5, not the given 0. -/
theorem C8_counterexample :
    (create_section exDB { page_id := 5, type := "hero", title := "x" } (some 0)).2.sections
        = exDB.sections ++ [{ id := 4, page_id := 5, type := "hero", title := "x" }] ∧
    Section.page_id { id := 4, page_id := 5, type := "hero", title := "x" } ≠ 0 := by
  decide

/-- C8 (amended): for a given *nonzero* page id, `create_section` with a
non-empty type persists the section with its page association equal to that
page id, overriding whatever page id the input carried. -/
theorem C8_create_section_overrides_nonzero (db : DB) (sec : SectionCreate) (pid : Nat)
    (hty : sec.type ≠ "") (hpid : pid ≠ 0) :
    (create_section db sec (some pid)).1
        = .ok { id := freshId (db.sections.map Section.id), page_id := pid,
                type := sec.type, title := sec.title } ∧
    (create_section db sec (some pid)).2.sections
        = db.sections ++
            [{ id := freshId (db.sections.map Section.id), page_id := pid,
               type := sec.type, title := sec.title }] := by
  constructor <;> simp [create_section, hty, hpid]

/-- Witness for the amended C8 on `exDB`: with the nonzero page id 9 the
input's page id 5 is overridden. -/
theorem C8_witness :
    (create_section exDB { page_id := 5, type := "hero", title := "x" } (some 9)).1
      = .ok { id := freshId (exDB.sections.map Section.id), page_id := 9,
              type := "hero", title := "x" } :=
  (C8_create_section_overrides_nonzero exDB
    { page_id := 5, type := "hero", title := "x" } 9 (by decide) (by decide)).1

/-- C9: on an existing media id, `update_media` returns the found record
with exactly title, alt text and section association overwritten (the
record-update form keeps `file_url`, `type`, `domain_id`, `uploaded_by` and
`id` untouched), replaces only rows with that id in the store, keeps every
other media row, and leaves the other tables unchanged. -/
theorem C9_update_media_frame (db : DB) (media_id : Nat) (title : String)
    (text : String) (section_id : Option Nat) (m : Media)
    (h : db.media.find? (fun x => x.id == media_id) = some m) :
    (update_media db media_id title text section_id).1
        = .ok { m with title := title, text := text, section_id := section_id } ∧
    (update_media db media_id title text section_id).2.media
        = db.media.map (fun x => if x.id == media_id
            then { m with title := title, text := text, section_id := section_id } else x) ∧
    (∀ x ∈ db.media, x.id ≠ media_id →
      x ∈ (update_media db media_id title text section_id).2.media) ∧
    (update_media db media_id title text section_id).2.users = db.users ∧
    (update_media db media_id title text section_id).2.domains = db.domains ∧
    (update_media db media_id title text section_id).2.pages = db.pages ∧
    (update_media db media_id title text section_id).2.sections = db.sections := by
  refine ⟨by simp [update_media, h], by simp [update_media, h], ?_,
    by simp [update_media, h], by simp [update_media, h],
    by simp [update_media, h], by simp [update_media, h]⟩
  intro x hx hne
  simp only [update_media, h]
  exact List.mem_map.mpr ⟨x, hx, by simp [hne]⟩

/-- Witness for C9 on `exDB7`: updating media 1 overwrites title, alt text
and section association on `exMedia` and returns that record. -/
theorem C9_witness :
    (update_media exDB7 1 "t2" "a2" none).1
      = .ok { exMedia with title := "t2", text := "a2", section_id := none } :=
  (C9_update_media_frame exDB7 1 "t2" "a2" none exMedia (by decide)).1

/-- C10: `update_media` errors exactly when the id is absent (404) and
validates nothing else: on an existing id it succeeds even with an empty
title, persisting a record whose title is empty — unlike `create_media`,
which rejects an empty title with 400. -/
theorem C10_update_media_skips_validation (db : DB) (media_id : Nat) (title : String)
    (text : String) (section_id : Option Nat) :
    ((update_media db media_id title text section_id).1
        = .error { status_code := 404, detail := "Media item not found" }
      ↔ db.media.find? (fun x => x.id == media_id) = none) ∧
    (∀ m, db.media.find? (fun x => x.id == media_id) = some m →
      (update_media db media_id "" text section_id).1
          = .ok { m with title := "", text := text, section_id := section_id } ∧
      { m with title := "", text := text, section_id := section_id } ∈
        (update_media db media_id "" text section_id).2.media ∧
      Media.title { m with title := "", text := text, section_id := section_id } = "") ∧
    (∀ media : MediaCreate, media.title = "" →
      create_media db media
        = (.error { status_code := 400, detail := "Media title is required" }, db)) := by
  refine ⟨?_, fun m h => ?_, fun media hm => by simp [create_media, hm]⟩
  · cases hf : db.media.find? (fun x => x.id == media_id) with
    | none => simp [update_media, hf]
    | some m => simp [update_media, hf]
  · have hmem : m ∈ db.media := List.mem_of_find?_eq_some h
    have hid : (m.id == media_id) = true := by simpa using List.find?_some h
    refine ⟨by simp [update_media, h], ?_, rfl⟩
    simp only [update_media, h]
    exact List.mem_map.mpr ⟨m, hmem, by simp [hid]⟩

/-- Witness for C10 on `exDB7`: updating media 1 to an empty title succeeds,
while creating a media record with an empty title is rejected. -/
theorem C10_witness :
    (update_media exDB7 1 "" "a" none).1
        = .ok { exMedia with title := "", text := "a", section_id := none } ∧
    create_media exDB7
        { title := "", file_url := "u", type := "image", domain_id := 1,
          section_id := none, uploaded_by := 1, text := "a" }
      = (.error { status_code := 400, detail := "Media title is required" }, exDB7) :=
  ⟨((C10_update_media_skips_validation exDB7 1 "" "a" none).2.1 exMedia (by decide)).1,
   (C10_update_media_skips_validation exDB7 1 "" "a" none).2.2
     { title := "", file_url := "u", type := "image", domain_id := 1,
       section_id := none, uploaded_by := 1, text := "a" } rfl⟩

end Crud
